import Mathlib

/-!
Shallow embedding of the cached filesystem-object library.

The embedding covers: the retry wrapper `attemptFileOperation`, the identity
cache `AsyncFsObj.fromCache`, the argument/path resolver `parseAsyncFsArgs`,
the TTL cache `cacheOrGenerate` of the synchronous variant, and the node
operations of the asynchronous (`AsyncFsObj`) and synchronous (`syncFs`)
variants, together with theorems settling the specification claims.

Machine conventions: JS numbers that are used as integers are modelled by
`Int`/`Nat`; JS `Buffer` contents are modelled by `String`; the process-wide
working directory (`process.cwd()`) and the current time (`Date.getTime()`)
are passed as explicit parameters, since the source reads them afresh from
the environment at each use.
-/

/-- Error value thrown by an OS call: only the symbolic `code` field is ever
inspected by the library (`err.code !== "ENOENT" && err.code !== "EBUSY"`). -/
structure FsError where
  code : String
deriving DecidableEq

/-- Classification used by the retry loop: a code is transient when it equals
`ENOENT` or `EBUSY` (the negation of the `break` condition in the source). -/
def transientCode (e : FsError) : Bool :=
  e.code == "ENOENT" || e.code == "EBUSY"

/-- Body of the `for (let i = 0; i < 2; i++)` loop of `attemptFileOperation`.
`fuel` is the number of remaining iterations (`2 - i`), `i` the loop counter,
`fb` the current value of the `fallback` variable and `err` the current value
of the `error` variable.  The third component of the result counts how many
times the action was invoked.  The action is modelled as a function from the
attempt index to its outcome. -/
def attemptLoop {α : Type} (func : Nat → Except FsError α) :
    Nat → Nat → α → Option FsError → α × Option FsError × Nat
  | 0, i, fb, err => (fb, err, i)
  | fuel + 1, i, fb, err =>
    match func i with
    | Except.ok v => (v, none, i + 1)
    | Except.error e =>
      if transientCode e then
        attemptLoop func fuel (i + 1) fb (some e)
      else
        (fb, some e, i + 1)

/-- Model of `attemptFileOperation(fallback, func, ...args)`: runs the action
up to two times, retrying only on a transient code, and returns the
`{ data, error }` pair (plus the invocation count).  The `err` parameter of
`attemptLoop` starts as `undefined` and the loop starts at `i = 0`. -/
def attemptFileOperation {α : Type} (fallback : α) (func : Nat → Except FsError α) :
    α × Option FsError × Nat :=
  attemptLoop func 2 0 fallback none

namespace AsyncFsObj

/-- State of the static `instanceCacheRecord` map: an association list from
canonical path to the identity of the constructed instance, plus a counter
supplying the identity of the next `new AsyncFsObj(path)`. -/
structure CacheState where
  entries : List (String × Nat)
  nextId : Nat
deriving DecidableEq

/-- Model of `AsyncFsObj.fromCache(path)`:
`record[path] || (record[path] = new AsyncFsObj(path))`.  A node is
represented by the identity (a number) of the constructed instance. -/
def fromCache (s : CacheState) (p : String) : Nat × CacheState :=
  match s.entries.lookup p with
  | some id => (id, s)
  | none => (s.nextId, ⟨(p, s.nextId) :: s.entries, s.nextId + 1⟩)

/-- Any later sequence of `fromCache` calls, modelled by folding them over the
cache state. -/
def runCalls (s : CacheState) : List String → CacheState
  | [] => s
  | q :: rest => runCalls (fromCache s q).2 rest

theorem fromCache_fst_of_lookup (s : CacheState) (p : String) (id : Nat)
    (h : s.entries.lookup p = some id) : (fromCache s p).1 = id := by
  unfold fromCache
  rw [h]

theorem lookup_after_self (s : CacheState) (p : String) :
    ((fromCache s p).2).entries.lookup p = some (fromCache s p).1 := by
  unfold fromCache
  cases h : s.entries.lookup p with
  | some v => simp [h]
  | none => simp [h, List.lookup]

theorem lookup_fromCache_preserved (s : CacheState) (q p : String) (id : Nat)
    (h : s.entries.lookup p = some id) :
    ((fromCache s q).2).entries.lookup p = some id := by
  unfold fromCache
  cases hq : s.entries.lookup q with
  | some v => simpa [hq] using h
  | none =>
    simp only [hq, List.lookup]
    cases hbe : p == q with
    | true =>
      rw [eq_of_beq hbe] at h
      rw [h] at hq
      cases hq
    | false => simpa using h

theorem lookup_runCalls_preserved (ops : List String) (s : CacheState) (p : String)
    (id : Nat) (h : s.entries.lookup p = some id) :
    (runCalls s ops).entries.lookup p = some id := by
  induction ops generalizing s with
  | nil => simpa [runCalls] using h
  | cons q rest ih =>
    simp only [runCalls]
    exact ih _ (lookup_fromCache_preserved s q p id h)

/-- C1: repeated lookups of the same canonical path return the identical node.
The first `fromCache(p)` stores the node it returns under `p`; calling
`fromCache(p)` immediately again, or after any later sequence of `fromCache`
calls on arbitrary paths, yields the same node identity, so at most one live
node exists per path. -/
theorem fromCache_identity (s : CacheState) (p : String) (ops : List String) :
    ((fromCache s p).2).entries.lookup p = some (fromCache s p).1 ∧
    (fromCache (fromCache s p).2 p).1 = (fromCache s p).1 ∧
    (fromCache (runCalls (fromCache s p).2 ops) p).1 = (fromCache s p).1 := by
  refine ⟨lookup_after_self s p, ?_, ?_⟩
  · exact fromCache_fst_of_lookup _ p _ (lookup_after_self s p)
  · exact fromCache_fst_of_lookup _ p _
      (lookup_runCalls_preserved ops _ p _ (lookup_after_self s p))

end AsyncFsObj

/-- C4: contract of the retry wrapper.  The action is invoked at most twice; a
success on the first attempt returns its value with one invocation and no
error; a transient failure followed by a success returns the success value
with exactly two invocations; a non-transient failure aborts after one
invocation returning `{ data: fallback, error }`; two failures exhaust the
attempts and return the fallback paired with the last error.  The wrapper is a
total function, so it never raises. -/
theorem attemptFileOperation_contract {α : Type} (fallback : α)
    (func : Nat → Except FsError α) (e : FsError) (v : α) :
    ((attemptFileOperation fallback func).2.2 ≤ 2) ∧
    (func 0 = Except.ok v → attemptFileOperation fallback func = (v, none, 1)) ∧
    (func 0 = Except.error e → transientCode e = true →
      ∀ w, func 1 = Except.ok w → attemptFileOperation fallback func = (w, none, 2)) ∧
    (func 0 = Except.error e → transientCode e = false →
      attemptFileOperation fallback func = (fallback, some e, 1)) ∧
    (func 0 = Except.error e → transientCode e = true →
      ∀ e2, func 1 = Except.error e2 →
        attemptFileOperation fallback func = (fallback, some e2, 2)) := by
  refine ⟨?_, ?_, ?_, ?_, ?_⟩
  · unfold attemptFileOperation
    cases h0 : func 0 with
    | ok v0 => simp [attemptLoop, h0]
    | error e0 =>
      by_cases ht : transientCode e0
      · cases h1 : func 1 with
        | ok v1 => simp [attemptLoop, h0, h1, ht]
        | error e1 =>
          by_cases ht1 : transientCode e1 <;> simp [attemptLoop, h0, h1, ht, ht1]
      · simp [attemptLoop, h0, ht]
  · intro h0
    unfold attemptFileOperation
    simp [attemptLoop, h0]
  · intro h0 ht w h1
    unfold attemptFileOperation
    simp [attemptLoop, h0, h1, ht]
  · intro h0 ht
    unfold attemptFileOperation
    simp [attemptLoop, h0, ht]
  · intro h0 ht e2 h1
    unfold attemptFileOperation
    by_cases ht1 : transientCode e2 <;> simp [attemptLoop, h0, h1, ht, ht1]

/-- Concrete action used by the witness of C4: fails with `ENOENT` on the
first attempt and succeeds with `7` on the second. -/
def c4Func : Nat → Except FsError Nat :=
  fun i => if i = 0 then Except.error ⟨"ENOENT"⟩ else Except.ok 7

/-- Witness for C4: the transient-then-success action yields the success value
with exactly two invocations. -/
theorem attemptFileOperation_contract_witness :
    (c4Func 0 = Except.error ⟨"ENOENT"⟩ ∧ transientCode ⟨"ENOENT"⟩ = true ∧
      c4Func 1 = Except.ok 7) ∧
    attemptFileOperation 0 c4Func = (7, none, 2) :=
  ⟨⟨rfl, by decide, rfl⟩,
    (attemptFileOperation_contract 0 c4Func ⟨"ENOENT"⟩ 7).2.2.1 rfl (by decide) 7 rfl⟩

/-- Dynamic argument value accepted by `parseAsyncFsArgs`.  `jsNull` stands
for both `null` and `undefined` (the resolver treats them identically);
`obj` carries the string-valued own properties of a plain object (properties
of other types never satisfy the `typeof a[k] === "string"` test); `other`
stands for any remaining value, which the resolver records as a problem. -/
inductive JsArg
  | str (s : String)
  | num (n : Int)
  | jsNull
  | boolVal (b : Bool)
  | arr (xs : List JsArg)
  | obj (props : List (String × String))
  | other

mutual

/-- Value equality on arguments, used to model the `args[2][args[1]] === args[0]`
test.  For the primitive payloads exercised here, JS strict equality coincides
with structural equality (for object arguments `===` is reference equality,
which is not distinguished by the claims settled below). -/
def jsArgBeq : JsArg → JsArg → Bool
  | JsArg.str a, JsArg.str b => a == b
  | JsArg.num a, JsArg.num b => a == b
  | JsArg.jsNull, JsArg.jsNull => true
  | JsArg.boolVal a, JsArg.boolVal b => a == b
  | JsArg.arr a, JsArg.arr b => jsArgsBeq a b
  | JsArg.obj a, JsArg.obj b => a == b
  | JsArg.other, JsArg.other => true
  | _, _ => false

/-- List version of `jsArgBeq`. -/
def jsArgsBeq : List JsArg → List JsArg → Bool
  | [], [] => true
  | a :: restA, b :: restB => jsArgBeq a b && jsArgsBeq restA restB
  | _, _ => false

end

mutual

/-- Size measure of an argument, used to bound the number of iterations of the
resolver's classification loop (each iteration consumes at least one unit). -/
def jsArgSize : JsArg → Nat
  | JsArg.arr xs => 1 + jsArgsSize xs
  | _ => 1

/-- Total size of a list of arguments. -/
def jsArgsSize : List JsArg → Nat
  | [] => 0
  | a :: rest => jsArgSize a + jsArgsSize rest

end

/-- The iteration-callback disambiguation at the head of `parseAsyncFsArgs`: a
three-argument call `(value, index, array)` with `array[index] === value` is
collapsed to the single argument `value`. -/
def relevantOf (args : List JsArg) : List JsArg :=
  match args with
  | [a0, JsArg.num n, JsArg.arr xs] =>
    if 0 ≤ n then
      match xs.get? n.toNat with
      | some b => if jsArgBeq b a0 then [a0] else args
      | none => args
    else args
  | _ => args

/-- The ordered key set probed on object arguments. -/
def pathKeys : List String :=
  ["name", "path", "filePath", "filepath", "file_path", "fullPath", "fullpath",
    "full_path"]

/-- Probes an object's properties with `keys.find(k => typeof a[k] === "string"
&& a[k].length)` and yields the found value. -/
def findPathKey (props : List (String × String)) : Option String :=
  pathKeys.findSome? (fun k =>
    match props.lookup k with
    | some v => if v.length ≠ 0 then some v else none
    | none => none)

/-- Classification loop of `parseAsyncFsArgs` (the `for` loop over `relevant`):
`i` is the loop index, `parts` and `problems` accumulate the outputs, and the
queue holds the remaining work — an array argument appends its elements to the
end of the queue (`relevant.push(b)`), preserving the loop's breadth order.
`fuel` starts strictly above the total argument size, which bounds the number
of iterations, so the fuel-exhausted base case is unreachable.  A problem is
recorded by its loop index.  Boolean arguments always land in `problems`
(`false` through the falsy test, `true` through the final fall-through). -/
def collectArgs : Nat → Nat → List String → List Nat → List JsArg →
    List String × List Nat
  | 0, _, parts, problems, _ => (parts, problems)
  | fuel + 1, _, parts, problems, [] => (parts, problems)
  | fuel + 1, i, parts, problems, a :: rest =>
    match a with
    | JsArg.jsNull => collectArgs fuel (i + 1) parts problems rest
    | JsArg.str s =>
      if parts = [] ∧ s = "" then
        collectArgs fuel (i + 1) (parts ++ ["."]) problems rest
      else
        collectArgs fuel (i + 1) (parts ++ [s]) problems rest
    | JsArg.num n =>
      collectArgs fuel (i + 1) (parts ++ [toString n]) problems rest
    | JsArg.boolVal _ =>
      collectArgs fuel (i + 1) parts (problems ++ [i]) rest
    | JsArg.arr xs => collectArgs fuel (i + 1) parts problems (rest ++ xs)
    | JsArg.obj props =>
      match findPathKey props with
      | some v => collectArgs fuel (i + 1) (parts ++ [v]) problems rest
      | none => collectArgs fuel (i + 1) parts (problems ++ [i]) rest
    | JsArg.other => collectArgs fuel (i + 1) parts (problems ++ [i]) rest

/-- Replaces every backslash by a forward slash (`replace(/\\/g, "/")`).  The
string operations of this model are implemented on the underlying character
lists, which matches JS string semantics character for character. -/
def slashify (s : String) : String :=
  ⟨s.data.map (fun c => if c = '\\' then '/' else c)⟩

/-- Prefix test, `a.startsWith(b)`. -/
def jsStartsWith (s pre : String) : Bool :=
  pre.data.isPrefixOf s.data

/-- Suffix test, `a.endsWith(b)`. -/
def jsEndsWith (s suf : String) : Bool :=
  suf.data.isSuffixOf s.data

/-- Character-count substring from an index to the end, `a.substring(n)` (an
index beyond the end yields the empty string, as in JS). -/
def jsSubstringFrom (s : String) (n : Nat) : String :=
  ⟨s.data.drop n⟩

/-- Removal of the final character, `a.substring(0, a.length - 1)`. -/
def jsDropLast (s : String) : String :=
  ⟨s.data.dropLast⟩

/-- Splitting on the slash character, `a.split("/")`. -/
def splitSlashAux : List Char → List Char → List String
  | acc, [] => [⟨acc.reverse⟩]
  | acc, c :: rest =>
    if c = '/' then ⟨acc.reverse⟩ :: splitSlashAux [] rest
    else splitSlashAux (c :: acc) rest

/-- String version of `splitSlashAux`. -/
def splitSlash (s : String) : List String :=
  splitSlashAux [] s.data

/-- Joining with the slash separator, `l.join("/")`. -/
def joinSlash : List String → String
  | [] => ""
  | [s] => s
  | s :: rest => s ++ "/" ++ joinSlash rest

/-- Collapses runs of repeated slashes (`replace(/\/\/+/g, "/")`). -/
def collapseSlashChars : List Char → List Char
  | [] => []
  | [c] => [c]
  | c :: c2 :: rest =>
    if c = '/' ∧ c2 = '/' then collapseSlashChars (c2 :: rest)
    else c :: collapseSlashChars (c2 :: rest)

/-- String version of `collapseSlashChars`. -/
def collapseSlashes (s : String) : String :=
  ⟨collapseSlashChars s.data⟩

/-- Removes every question mark (`replace(/\?/g, "")`). -/
def stripQueryMarks (s : String) : String :=
  ⟨s.data.filter (fun c => c ≠ '?')⟩

/-- Model of Node's `path.resolve(p)` on a posix system whose working
directory is `cwd` (assumed to be a normalized absolute path): a relative
path is based at the working directory, then `.`, empty and `..` segments are
eliminated. -/
def resolvePosix (cwd p : String) : String :=
  let base := if jsStartsWith p ("/") then p else cwd ++ "/" ++ p
  let segs := (splitSlash base).foldl
    (fun acc s =>
      if s = "" ∨ s = "." then acc
      else if s = ".." then acc.dropLast
      else acc ++ [s]) []
  "/" ++ joinSlash segs

/-- Result of `parseAsyncFsArgs`: the canonical path, the collected segments,
and the indices of the unresolvable arguments. -/
structure PathParse where
  path : String
  parts : List String
  problems : List Nat
deriving DecidableEq

/-- Model of `parseAsyncFsArgs(...args)` with the working directory passed
explicitly.  Pipeline from the source: the iteration-callback disambiguation,
the classification loop, `join("/")`, backslash conversion, slash collapsing,
query-marker removal, trailing-slash strip, `path.resolve`, and the
working-directory relativization `prefix.startsWith(p + "/")` (with
`prefix = process.cwd().replace(/\\/g, "/")`). -/
def parseAsyncFsArgs (cwd : String) (args : List JsArg) : PathParse :=
  let relevant := relevantOf args
  let res := collectArgs (jsArgsSize relevant + 1) 0 [] [] relevant
  let p0 := stripQueryMarks (collapseSlashes (slashify (joinSlash res.1)))
  let p1 := if jsEndsWith p0 ("/") then jsDropLast p0 else p0
  let p2 := resolvePosix (slashify cwd) p1
  let prefixStr := slashify cwd
  let p3 :=
    if jsStartsWith prefixStr (p2 ++ "/") then
      "." ++ jsSubstringFrom p2 prefixStr.length
    else p2
  ⟨p3, res.1, res.2⟩

/-- Child-node resolution performed by `AsyncFsObj.children`: each directory
entry name is passed to `parseAsyncFsArgs` on its own —
`data.map(name => AsyncFsObj.fromCache(parseAsyncFsArgs(name)))` — and
`fromCache` keys on the `.path` field of the result. -/
def asyncChildPaths (cwd : String) (entries : List String) : List String :=
  entries.map (fun name => (parseAsyncFsArgs cwd [JsArg.str name]).path)

/-- C5 (code bug): the relativization test is swapped.  The source checks
`prefix.startsWith(p + "/")` — that is, whether the resolved path is a proper
ancestor of the working directory — instead of whether it falls under the
working directory.  With working directory `/a/b/c`, the descendant
`/a/b/c/d` is left absolute (the claim requires `./d`), while the ancestor
`/a` is rewritten to `.` (the claim requires it to stay absolute; the
substring taken is always empty because the prefix is longer than the path). -/
theorem parseAsyncFsArgs_relativize_swapped :
    (parseAsyncFsArgs ("/a/b/c") [JsArg.str "/a/b/c/d"]).path = "/a/b/c/d" ∧
    (parseAsyncFsArgs ("/a/b/c") [JsArg.str "/a"]).path = "." := by
  constructor <;> decide

/-- C6 (code bug): canonicalization is not idempotent.  With working directory
`/a/b`, canonicalizing `/a` yields `.` (through the swapped relativization
test of C5), but canonicalizing `.` yields `/a/b`, a different string. -/
theorem parseAsyncFsArgs_not_idempotent :
    (parseAsyncFsArgs ("/a/b") [JsArg.str "/a"]).path = "." ∧
    (parseAsyncFsArgs ("/a/b") [JsArg.str "."]).path = "/a/b" ∧
    ("/a/b" : String) ≠ "." := by
  refine ⟨by decide, by decide, by decide⟩

/-- C7 (code bug): `children` resolves each entry name against the working
directory, not under the parent folder's path.  Listing the folder `/x/y`
with entry `f` while the working directory is `/a/b` produces the node for
`/a/b/f`, not the node for the child `/x/y/f` that the claim (and the
synchronous variant, which joins `obj.path` with the entry name) requires. -/
theorem asyncChildPaths_ignores_parent :
    asyncChildPaths ("/a/b") ["f"] = ["/a/b/f"] ∧
    ("/a/b/f" : String) ≠ "/x/y/f" := by
  constructor <;> decide

/-- Payload held by a cache entry's `data` field: either a generated value or
a captured error (`cacheOrGenerate` stores thrown errors as data — negative
caching). -/
inductive JData (α : Type)
  | val (v : α)
  | err (e : String)
deriving DecidableEq

/-- The `cachedObj` argument of `cacheOrGenerate` as its callers produce it:
absent (`null`/`undefined`), an `Error` instance (the `cachedObj instanceof
Error` test), or a `{ data, time }` entry with a numeric timestamp. -/
inductive CachedObj (α : Type)
  | absent
  | errorObj (e : String)
  | entry (data : JData α) (time : Nat)
deriving DecidableEq

/-- Outcome of one call to `generate()`: a value, a thrown error, or an
unresolved `Promise` (which the source converts to a thrown
`Unmplemented generate response` error inside the same `try` block). -/
inductive GenOutcome (α : Type)
  | ok (v : α)
  | thrown (e : String)
  | promiselike
deriving DecidableEq

/-- The `try { const g = generate(); ... } catch (err) { ... }` block of
`cacheOrGenerate`: wraps the returned value or the thrown error into a new
entry stamped with the current time. -/
def runGenerate {α : Type} (g : GenOutcome α) (now : Nat) : JData α × Nat :=
  match g with
  | GenOutcome.ok v => (JData.val v, now)
  | GenOutcome.thrown e => (JData.err e, now)
  | GenOutcome.promiselike => (JData.err ("Unmplemented generate response"), now)

/-- Model of `cacheOrGenerate(cachedObj, generate, maxCacheAge)`, with the
clock `now` passed explicitly; the second component records whether
`generate` was invoked.  The source's guard
`!cachedObj || cachedObj instanceof Error || !cachedTime || isNaN(...) ||
typeof maxCacheAge !== "number" || isNaN(maxCacheAge) || maxCacheAge < 0`
sends everything except an entry with a nonzero timestamp and a nonnegative
numeric age to the generator; a surviving entry is returned unchanged while
`now < cachedTime + maxCacheAge` and regenerated otherwise.  (`maxCacheAge`
is an `Int` so the `maxCacheAge < 0` test is representable; the `typeof` and
`isNaN` disjuncts hold vacuously for numeric models.) -/
def cacheOrGenerate {α : Type} (cachedObj : CachedObj α) (generate : GenOutcome α)
    (maxCacheAge : Int) (now : Nat) : (JData α × Nat) × Bool :=
  match cachedObj with
  | CachedObj.entry d t =>
    if t == 0 || decide (maxCacheAge < 0) then (runGenerate generate now, true)
    else if decide ((now : Int) < (t : Int) + maxCacheAge) then ((d, t), false)
    else (runGenerate generate now, true)
  | _ => (runGenerate generate now, true)

/-- Claim-side predicate (C8 wording): the previous entry is empty. -/
def isEmptyPrev {α : Type} : CachedObj α → Bool
  | CachedObj.absent => true
  | _ => false

/-- Claim-side predicate (C8 wording): the previous entry is expired, that is
`now - timestamp >= maxAge`. -/
def entryExpired {α : Type} : CachedObj α → Int → Nat → Bool
  | CachedObj.entry _ t, maxAge, now => decide ((t : Int) + maxAge ≤ (now : Int))
  | _, _, _ => false

/-- Claim-side predicate (C8 wording): the previous entry records a captured
error. -/
def recordsCapturedError {α : Type} : CachedObj α → Bool
  | CachedObj.entry (JData.err _) _ => true
  | CachedObj.errorObj _ => true
  | _ => false

/-- The C8 claim instantiated at one input: the generator is invoked exactly
when the previous entry is empty, expired, or records a captured error. -/
def ttlClaimAt {α : Type} (c : CachedObj α) (g : GenOutcome α) (m : Int)
    (now : Nat) : Prop :=
  (cacheOrGenerate c g m now).2 =
    (isEmptyPrev c || entryExpired c m now || recordsCapturedError c)

/-- C8 counterexample: a fresh entry whose `data` records a captured error
(timestamp 5, age 100, clock 10) is returned unchanged without invoking the
generator — the source only tests whether the entry itself is an `Error`
instance, never its `data` — contradicting the claim that an error-recording
entry forces regeneration. -/
theorem cacheOrGenerate_claim_false :
    ¬ ttlClaimAt (CachedObj.entry (JData.err "EACCES") 5 : CachedObj Nat)
      (GenOutcome.ok 7) 100 10 := by
  unfold ttlClaimAt
  decide

/-- Specification-side freshness predicate for the amended C8: the previous
value survives exactly when it is a `{ data, time }` entry with a nonzero
timestamp, the maximum age is nonnegative, and `now < time + maxAge`. -/
def freshValidEntry {α : Type} : CachedObj α → Int → Nat → Bool
  | CachedObj.entry _ t, maxAge, now =>
    t != 0 && decide (0 ≤ maxAge) && decide ((now : Int) < (t : Int) + maxAge)
  | _, _, _ => false

/-- C8 amended: the TTL cache invokes the generator exactly when the previous
value is not a fresh valid entry (it is absent, an error object, has a zero
timestamp, a negative maximum age, or is expired); a fresh valid entry is
returned unchanged without invoking the generator, regardless of whether its
data records a captured error (negative caching); whenever the generator is
invoked, its value or thrown error is wrapped in a new entry stamped with the
current time. -/
theorem cacheOrGenerate_amended {α : Type} (c : CachedObj α) (g : GenOutcome α)
    (m : Int) (now : Nat) :
    ((cacheOrGenerate c g m now).2 = !(freshValidEntry c m now)) ∧
    (∀ d t, c = CachedObj.entry d t → freshValidEntry c m now = true →
      cacheOrGenerate c g m now = ((d, t), false)) ∧
    (freshValidEntry c m now = false →
      cacheOrGenerate c g m now = (runGenerate g now, true)) := by
  cases c with
  | absent => simp [cacheOrGenerate, freshValidEntry]
  | errorObj e => simp [cacheOrGenerate, freshValidEntry]
  | entry d t =>
    by_cases h1 : t = 0
    · subst h1
      simp [cacheOrGenerate, freshValidEntry]
    · by_cases h2 : m < 0
      · have h2n : ¬ (0 ≤ m) := by omega
        simp [cacheOrGenerate, freshValidEntry, h1, h2, h2n]
      · by_cases h3 : (now : Int) < (t : Int) + m
        · have h2y : (0 : Int) ≤ m := by omega
          simp [cacheOrGenerate, freshValidEntry, h1, h2, h2y, h3]
        · simp [cacheOrGenerate, freshValidEntry, h1, h2, h3]

/-- Witness for the amended C8: a fresh valid entry holding the value `5`
stamped at time `3` with age `100` at clock `10` is returned unchanged. -/
theorem cacheOrGenerate_amended_witness :
    freshValidEntry (CachedObj.entry (JData.val (5 : Nat)) 3) 100 10 = true ∧
    cacheOrGenerate (CachedObj.entry (JData.val (5 : Nat)) 3) (GenOutcome.ok 9)
      100 10 = ((JData.val 5, 3), false) :=
  ⟨by decide,
    (cacheOrGenerate_amended (CachedObj.entry (JData.val 5) 3) (GenOutcome.ok 9)
      100 10).2.1 (JData.val 5) 3 rfl (by decide)⟩

/-- Contents of the filesystem visible to the OS primitives: a map from path
to file contents plus the set of directory paths.  `Buffer` contents are
modelled by `String`. -/
structure Disk where
  files : List (String × String)
  dirs : List String
deriving DecidableEq

/-- Kind of a filesystem entry as derived from a stat result. -/
inductive FsType
  | file
  | folder
  | unknown
deriving DecidableEq

/-- The `fs.promises` members bound by the node layer through
`getBoundMethod` (the directory primitives are not needed by the claims
settled here). -/
inductive FsPrim
  | statP
  | readFileP
  | writeFileP
  | appendFileP
deriving DecidableEq

/-- Result value of an OS primitive. -/
inductive FsVal
  | statV (t : FsType)
  | bytes (s : String)
  | unitV
deriving DecidableEq

/-- Overwrites (or creates) a file's contents. -/
def setFile (d : Disk) (p c : String) : Disk :=
  ⟨(p, c) :: d.files.filter (fun e => !(e.1 == p)), d.dirs⟩

/-- Semantics of the OS primitives, the external collaborators of the node
layer: `stat` reports the entry's kind, `readFile` returns the file's
contents without modifying the disk, `writeFile` replaces them, `appendFile`
extends them.  Missing targets fail with `ENOENT`. -/
def runPrim : FsPrim → Disk → String → Option String → Except FsError FsVal × Disk
  | FsPrim.statP, d, p, _ =>
    (match d.files.lookup p with
     | some _ => Except.ok (FsVal.statV FsType.file)
     | none =>
       if d.dirs.contains p then Except.ok (FsVal.statV FsType.folder)
       else Except.error ⟨"ENOENT"⟩, d)
  | FsPrim.readFileP, d, p, _ =>
    (match d.files.lookup p with
     | some c => Except.ok (FsVal.bytes c)
     | none => Except.error ⟨"ENOENT"⟩, d)
  | FsPrim.writeFileP, d, p, arg =>
    (Except.ok FsVal.unitV, setFile d p (arg.getD ""))
  | FsPrim.appendFileP, d, p, arg =>
    (Except.ok FsVal.unitV,
      match d.files.lookup p with
      | some old => setFile d p (old ++ arg.getD "")
      | none => setFile d p (arg.getD ""))

/-- A bound primitive run through `attemptFileOperation` (the
`getBoundMethod` plus `attemptFileOperation(fallback, func, ...args)` pattern
of the node layer, with fallback `null`).  A primitive's outcome is a
deterministic function of the disk and a failing primitive leaves the disk
unchanged, so a retry reruns the identical outcome; the disk effect applies
when the primitive succeeds. -/
def attemptPrim (prim : FsPrim) (d : Disk) (p : String) (arg : Option String) :
    (Option FsVal × Option FsError × Nat) × Disk :=
  let step := runPrim prim d p arg
  (attemptFileOperation none (fun _ => Except.map some step.1),
   match step.1 with
   | Except.ok _ => step.2
   | Except.error _ => d)

namespace AsyncFsObj

/-- An `AsyncFsObj` instance: its `_path` and its `cachedStat` field — the
only cached attribute of the asynchronous variant.  `stat()` writes
`cachedStat` on success; no method of the class ever clears it. -/
structure Node where
  path : String
  cachedStat : Option FsType
deriving DecidableEq

/-- Model of `stat()`: the bound `fs.promises.stat` runs through
`attemptFileOperation`; a valid result is stored in `cachedStat` and
returned, anything else yields `null` and leaves the node untouched. -/
def stat (d : Disk) (n : Node) : Option FsType × Node :=
  let r := attemptPrim FsPrim.statP d n.path none
  match r.1.1, r.1.2.1 with
  | some (FsVal.statV t), none => (some t, { n with cachedStat := some t })
  | _, _ => (none, n)

/-- Model of `type()`: `s?.isFile() ? "file" : s?.isDirectory() ? "folder" :
"unknown"` over the result of `stat()`. -/
def type (d : Disk) (n : Node) : FsType × Node :=
  match stat d n with
  | (some t, n1) => (t, n1)
  | (none, n1) => (FsType.unknown, n1)

/-- Model of `file()`: `true` for a file, `false` for a folder, `undefined`
otherwise. -/
def file (d : Disk) (n : Node) : Option Bool × Node :=
  match type d n with
  | (FsType.file, n1) => (some true, n1)
  | (FsType.folder, n1) => (some false, n1)
  | (FsType.unknown, n1) => (none, n1)

/-- The `fs.promises` member bound inside `write`:
`this.getBoundMethod(fs.promises.readFile)` — the read primitive, not a
write primitive. -/
def writeBoundPrim : FsPrim := FsPrim.readFileP

/-- The `fs.promises` member bound inside `append`: also
`fs.promises.readFile`. -/
def appendBoundPrim : FsPrim := FsPrim.readFileP

/-- Model of `write(data, overwrite)` under the `"normal"` operation mode.
The guard `!overwrite && !(await this.file())` throws (the `&&`
short-circuits, so with `overwrite = true` no stat happens at all); the
strict-mode folder check and the strict-mode error rethrow are skipped in
`"normal"` mode; then the bound primitive runs through
`attemptFileOperation` and `!error` is returned. -/
def write (d : Disk) (n : Node) (data : String) (overwrite : Bool) :
    (Except String Bool × Node) × Disk :=
  let guarded :=
    if overwrite = false then
      let r := file d n
      (!(r.1 == some true), r.2)
    else (false, n)
  if guarded.1 then
    ((Except.error ("Write target already exists at " ++ n.path ++
      " (overwrite disabled)"), guarded.2), d)
  else
    let r := attemptPrim writeBoundPrim d guarded.2.path (some data)
    ((Except.ok r.1.2.1.isNone, guarded.2), r.2)

/-- Model of `append(data, mustExist)` under the `"normal"` operation mode,
analogous to `write`. -/
def append (d : Disk) (n : Node) (data : String) (mustExist : Bool) :
    (Except String Bool × Node) × Disk :=
  let guarded :=
    if mustExist = true then
      let r := file d n
      (!(r.1 == some true), r.2)
    else (false, n)
  if guarded.1 then
    ((Except.error ("Append file target does not exists at " ++ n.path),
      guarded.2), d)
  else
    let r := attemptPrim appendBoundPrim d guarded.2.path (some data)
    ((Except.ok r.1.2.1.isNone, guarded.2), r.2)

/-- Model of `data()` under the `"normal"` operation mode: a non-file target
yields `undefined`; otherwise the bound `fs.promises.readFile` runs through
`attemptFileOperation`, a failed or malformed read yielding `null` (both
collapsed to `none` here). -/
def dataOp (d : Disk) (n : Node) : Option String × Node :=
  let r := file d n
  if !(r.1 == some true) then (none, r.2)
  else
    let rd := attemptPrim FsPrim.readFileP d r.2.path none
    match rd.1.1, rd.1.2.1 with
    | some (FsVal.bytes b), none => (some b, r.2)
    | _, _ => (none, r.2)

end AsyncFsObj

namespace SyncFs

/-- The three per-node attribute caches of the synchronous variant
(`_hidden.stat`, `_hidden.data`, `_hidden.children`), payload types
abstracted. -/
structure Hidden (s d k : Type) where
  stat : Option s
  data : Option d
  children : Option k
deriving DecidableEq

/-- Cache-field effect of `writeFunc` given the `size` field of a successful
`writeToFsObj` result: `_hidden.data = null` unconditionally, and when
`r?.size` is truthy also `_hidden.data = null; _hidden.stat = null` —
`_hidden.children` is never assigned anywhere in `writeFunc`.  (The initial
`getCachedStat` call may refresh `_hidden.stat`, which the subsequent nulling
overrides on success; it never touches `_hidden.children` either.) -/
def writeFuncCaches {s d k : Type} (h : Hidden s d k) (resultSize : Nat) :
    Hidden s d k :=
  let h1 : Hidden s d k := { h with data := none }
  if resultSize != 0 then { h1 with data := none, stat := none } else h1

/-- `fs.statSync` as consumed by the synchronous variant: the entry's kind
and size. -/
def statSync (d : Disk) (p : String) : Except String (FsType × Nat) :=
  match d.files.lookup p with
  | some c => Except.ok (FsType.file, c.length)
  | none =>
    if d.dirs.contains p then Except.ok (FsType.folder, 0)
    else Except.error ("ENOENT")

/-- `getCachedStat` evaluated on a node whose `_hidden.stat` cache is empty
(all evaluations below run on freshly created nodes, and `cacheOrGenerate`
with an empty previous entry invokes the generator): an `ENOENT` error
collapses to `null`. -/
def getStatFresh (d : Disk) (p : String) : Option (FsType × Nat) :=
  match statSync d p with
  | Except.ok s => some s
  | Except.error _ => none

/-- The `type` getter on a fresh node: `unknown` without a stat, else `file`
or `folder`. -/
def typeSync (d : Disk) (p : String) : String :=
  match getStatFresh d p with
  | none => "unknown"
  | some (FsType.file, _) => "file"
  | some (FsType.folder, _) => "folder"
  | some (FsType.unknown, _) => "unknown"

/-- The `parent` getter of the synchronous variant: drop the final slash
separated segment; an empty result becomes `/`. -/
def parentPath (p : String) : String :=
  let j := joinSlash (splitSlash p).dropLast
  if j = "" then "/" else j

/-- `fs.mkdirSync(path)` (non-recursive): fails with `EEXIST` on an existing
entry and with `ENOENT` when the parent directory is missing. -/
def mkdirSync (d : Disk) (p : String) : Except String Disk :=
  if (d.files.lookup p).isSome || d.dirs.contains p then Except.error ("EEXIST")
  else if d.dirs.contains (parentPath p) then Except.ok ⟨d.files, p :: d.dirs⟩
  else Except.error ("ENOENT")

/-- Model of `writeToFsObj(obj, isAppend, value, overwrite)` for string
payloads (a string value becomes `Buffer.from(value)`; the massaging branches
for arrays, errors and dates are not exercised by the claims).  Parent
handling: a missing parent triggers an attempted creation of the grandparent
and then — the parent itself still being missing — a second `mkdirSync` of
the grandparent, whose raised error propagates; a parent that exists but is
not a folder raises `Invalid file parent type`.  Then the overwrite guard
`obj.type === "file" && obj.size > 0 && !overwrite && !isAppend` raises the
structural-conflict error, and otherwise `appendFileSync`/`writeFileSync`
runs and the byte count is returned (`obj.size` reads the pre-write cached
stat; it is taken as 0 where the guard short-circuits before reading it). -/
def writeToFsObj (d : Disk) (p : String) (isAppend : Bool) (value : String)
    (overwrite : Bool) : Except String (Nat × Disk) :=
  let pp := parentPath p
  let afterParent : Except String Disk :=
    if typeSync d pp = "unknown" then
      match
        (if typeSync d (parentPath pp) = "unknown" then mkdirSync d (parentPath pp)
         else Except.ok d) with
      | Except.error e => Except.error e
      | Except.ok d1 =>
        match
          (if typeSync d1 pp = "unknown" then mkdirSync d1 (parentPath pp)
           else Except.ok d1) with
        | Except.error e => Except.error e
        | Except.ok d2 => Except.ok d2
    else if typeSync d pp ≠ "folder" then
      Except.error ("Invalid file parent type of " ++ p)
    else Except.ok d
  match afterParent with
  | Except.error e => Except.error e
  | Except.ok d2 =>
    let preSize : Nat :=
      match getStatFresh d2 p with
      | some (_, sz) => sz
      | none => 0
    if typeSync d2 p = "file" ∧ preSize > 0 ∧ overwrite = false ∧
        isAppend = false then
      Except.error ("Write target already exists (overwrite disabled) at " ++ p)
    else
      let d3 :=
        if isAppend then
          match d2.files.lookup p with
          | some old => setFile d2 p (old ++ value)
          | none => setFile d2 p value
        else setFile d2 p value
      Except.ok ((if isAppend then preSize else 0) + value.length, d3)

/-- Model of `writeFunc(data, overwrite)` on a fresh node: the initial
`getCachedStat` feeds only a console warning, then `writeToFsObj` runs with
`isAppend = false` and its raised errors propagate (the cache-field effect of
a success is `writeFuncCaches`). -/
def writeFunc (d : Disk) (p : String) (data : String) (overwrite : Bool) :
    Except String (Nat × Disk) :=
  writeToFsObj d p false data overwrite

end SyncFs

/-- Disk fixture: the single file `/f` with contents `old` under the root
directory. -/
def diskF : Disk := ⟨[("/f", "old")], ["/"]⟩

/-- Empty disk fixture. -/
def diskEmpty : Disk := ⟨[], []⟩

/-- A fresh node for `/f`. -/
def nodeF : AsyncFsObj.Node := ⟨"/f", none⟩

/-- A fresh node for the nonexistent `/g`. -/
def nodeG : AsyncFsObj.Node := ⟨"/g", none⟩

/-- The `/f` node after one `stat()` call has populated its `cachedStat`. -/
def nodeFStatted : AsyncFsObj.Node := (AsyncFsObj.stat diskF nodeF).2

/-- Disk fixture for C9: the file `/x/f` with contents `old` inside the
existing folder `/x`. -/
def diskXY : Disk := ⟨[("/x/f", "old")], ["/", "/x"]⟩

/-- C3 (code bug): the overwrite guard of the asynchronous `write` is
inverted.  `write("new", overwrite = false)` on the existing file `/f` does
not raise a structural-conflict error — it proceeds and reports success —
while the same call on the missing target `/g` raises the
`Write target already exists (overwrite disabled)` error: the guard
`!overwrite && !(await this.file())` fires exactly when the target is NOT an
existing file, contradicting both the claim and the guard's own error
message (the synchronous variant's guard `obj.type === "file" && obj.size > 0
&& !overwrite` implements the claimed behaviour). -/
theorem write_guard_inverted :
    (AsyncFsObj.write diskF nodeF "new" false).1.1 = Except.ok true ∧
    (AsyncFsObj.write diskEmpty nodeG "new" false).1.1 =
      Except.error ("Write target already exists at /g (overwrite disabled)") :=
  ⟨rfl, rfl⟩

/-- C2 (code bug): a successful mutation does not invalidate all of the
node's cached attributes.  Asynchronous variant: after `stat()` populates
`cachedStat` on the `/f` node (contents `old`), a successful
`write("new", overwrite = true)` leaves `cachedStat` holding the pre-write
stat, leaves the disk unchanged (the bound operation is `readFile`, see
C10), and a subsequent `data()` returns the old bytes, not `"new"`.
Synchronous variant: `writeFunc` clears `_hidden.data` and `_hidden.stat`
but never `_hidden.children`, so a populated children cache survives the
successful write. -/
theorem write_not_invalidating :
    nodeFStatted.cachedStat = some FsType.file ∧
    (AsyncFsObj.write diskF nodeFStatted "new" true).1.1 = Except.ok true ∧
    ((AsyncFsObj.write diskF nodeFStatted "new" true).1.2).cachedStat =
      some FsType.file ∧
    (AsyncFsObj.write diskF nodeFStatted "new" true).2 = diskF ∧
    (AsyncFsObj.dataOp (AsyncFsObj.write diskF nodeFStatted "new" true).2
      (AsyncFsObj.write diskF nodeFStatted "new" true).1.2).1 = some "old" ∧
    ("old" : String) ≠ "new" ∧
    (SyncFs.writeFuncCaches
      (⟨some 0, some 0, some 0⟩ : SyncFs.Hidden Nat Nat Nat) 4).children =
      some 0 :=
  ⟨rfl, rfl, rfl, rfl, rfl, by decide, rfl⟩

/-- C9 (code bug): the synchronous and asynchronous variants do not follow
the same error-raising rules.  Writing `"new"` with `overwrite = false` onto
the existing nonempty file `/x/f`: the synchronous variant raises the
structural-conflict error `Write target already exists (overwrite
disabled)`, while the asynchronous variant raises nothing and reports
success (its guard is inverted, C3), so the two variants are not
behaviorally equivalent. -/
theorem sync_async_write_diverge :
    SyncFs.writeFunc diskXY "/x/f" "new" false =
      Except.error ("Write target already exists (overwrite disabled) at /x/f") ∧
    (AsyncFsObj.write diskXY ⟨"/x/f", none⟩ "new" false).1.1 = Except.ok true :=
  ⟨rfl, rfl⟩

theorem attemptPrim_readFile_disk (d : Disk) (p : String) (arg : Option String) :
    (attemptPrim FsPrim.readFileP d p arg).2 = d := by
  unfold attemptPrim runPrim
  cases h : d.files.lookup p <;> simp [h]

/-- C10: the asynchronous `write` and `append` bind `fs.promises.readFile`
as their underlying operation rather than a write or append primitive;
consequently no call — in particular every call that returns success —
modifies the disk: the target file's contents are left unchanged. -/
theorem write_append_bind_readFile :
    AsyncFsObj.writeBoundPrim = FsPrim.readFileP ∧
    AsyncFsObj.appendBoundPrim = FsPrim.readFileP ∧
    (∀ d n data overwrite, (AsyncFsObj.write d n data overwrite).2 = d) ∧
    (∀ d n data mustExist, (AsyncFsObj.append d n data mustExist).2 = d) := by
  refine ⟨rfl, rfl, ?_, ?_⟩
  · intro d n data overwrite
    unfold AsyncFsObj.write
    dsimp only
    split <;> split <;>
      first
      | rfl
      | exact attemptPrim_readFile_disk d _ (some data)
  · intro d n data mustExist
    unfold AsyncFsObj.append
    dsimp only
    split <;> split <;>
      first
      | rfl
      | exact attemptPrim_readFile_disk d _ (some data)
